import Mathlib

/-!
Verification of the fatural asynchronous bill-processing pipeline
(`src/app/worker.py`, `src/app/scanner.py`, `src/app/worker_service.py`,
with the data model of `src/app/models.py` and `src/app/schemas.py`).

The Python worker is shallowly embedded: UUIDs become `Nat`, floats become
`ℚ`, the bills table becomes a `List Bill`, and every external effect
(GCS download, Gemini extraction call, embedding call, the pgvector
similarity query, the terminal commit) is an explicit input describing the
collaborator's response, so each pipeline function is a pure Lean function
of the worker's inputs and the database state.
-/

namespace Fatural

/-- One line item extracted from a bill (`ExtractedLineItem` in
`src/app/schemas.py`); monetary floats are modelled as `ℚ`. -/
structure ExtractedLineItem where
  description : String
  quantity : ℚ
  unit_price : ℚ
  total_price : ℚ
  vat_rate : Option ℚ
  atk_code : String
deriving DecidableEq

/-- Structured output of the Gemini extraction call (`ExtractedBillData` in
`src/app/schemas.py`), restricted to the fields the worker pipeline reads. -/
structure ExtractedBillData where
  vendor_name : String
  vendor_tax_number : Option String
  bill_number : Option String
  bill_date : Option String
  total_amount : ℚ
  currency : String
  line_items : List ExtractedLineItem
  confidence_score : ℚ
deriving DecidableEq

/-- A parsed `datetime` value; the pipeline only stores parse results and no
claim inspects them, so a parsed date is identified with its rendering. -/
abbrev DateTimeV := String

/-- A persisted row of the `bills` table (`Bill` in `src/app/models.py`),
restricted to the columns the worker reads or writes.  `id` and
`company_id` model the UUID primary key and tenant key as `Nat`. -/
structure Bill where
  id : Nat
  company_id : Nat
  vendor_name : Option String
  vendor_tax_number : Option String
  bill_number : Option String
  bill_date : Option DateTimeV
  total_amount : Option ℚ
  currency : String
  line_items : Option (List ExtractedLineItem)
  raw_extraction : Option ExtractedBillData
  visual_fingerprint : Option (List ℚ)
  status : String
  error_message : Option String
  is_duplicate : Bool
  duplicate_of_id : Option Nat
  similarity_score : Option ℚ
  processed_at : Option Nat
deriving DecidableEq

/-- The Pub/Sub job payload (`BillUploadMessage` in `src/app/schemas.py`);
the two UUID strings are modelled as the `Nat` they denote. -/
structure BillUploadMessage where
  bill_id : Nat
  company_id : Nat
  storage_path : String
  mime_type : String
  uploaded_at : String
deriving DecidableEq

/-- Outcome of the external Gemini extraction call as observed by
`extract_from_image` in `src/app/scanner.py`: the call may raise, return an
empty `response.text`, return text that fails schema validation, or return
a valid `ExtractedBillData`. -/
inductive GeminiResponse where
  | failure (msg : String)
  | empty
  | invalid (raw : String)
  | ok (d : ExtractedBillData)
deriving DecidableEq

/-- The fallback record built in the `except` branch of
`extract_from_image` (`src/app/scanner.py` lines 133-141); unset optional
fields take their schema defaults. -/
def extractionFailedFallback : ExtractedBillData :=
  { vendor_name := "Extraction Failed"
    vendor_tax_number := none
    bill_number := none
    bill_date := none
    total_amount := 0
    currency := "EUR"
    line_items := []
    confidence_score := 0 }

/-- `BillScanner.extract_from_image` (`src/app/scanner.py`): returns the
parsed structured response, and the fallback record on any failure of the
call, an empty response, or a schema-validation error. -/
def extract_from_image : GeminiResponse → ExtractedBillData
  | .ok d => d
  | .failure _ => extractionFailedFallback
  | .empty => extractionFailedFallback
  | .invalid _ => extractionFailedFallback

/-- Outcome of the external embedding call as observed by
`generate_embedding` in `src/app/scanner.py`: the call may raise, return no
embeddings, or return a vector. -/
inductive EmbedResponse where
  | failure (msg : String)
  | empty
  | ok (v : List ℚ)
deriving DecidableEq

/-- The all-zero 768-dimensional fallback vector `[0.0] * 768` of
`generate_embedding` (`src/app/scanner.py`). -/
def zero768 : List ℚ := List.replicate 768 0

/-- `BillScanner.generate_embedding` (`src/app/scanner.py`): the returned
vector on success, and the all-zero 768-dimensional vector when the call
fails or returns no embeddings. -/
def generate_embedding : EmbedResponse → List ℚ
  | .ok v => v
  | .failure _ => zero768
  | .empty => zero768

/-- The duplicate-detection threshold set in `BillProcessor.__init__`
(`src/app/worker.py` line 44): cosine similarity `0.95`. -/
def duplicate_threshold : ℚ := 95 / 100

/-- `BillProcessor._get_bill` (`src/app/worker.py` lines 147-160): fetch
the bill by id with the tenant filter `Bill.company_id == company_id`;
`scalar_one_or_none` on the primary key yields the first (unique) match. -/
def _get_bill (bills : List Bill) (bill_id company_id : Nat) : Option Bill :=
  bills.find? (fun b => b.id == bill_id && b.company_id == company_id)

/-- The `WHERE` clause of the similarity query in
`BillProcessor._check_duplicate` (`src/app/worker.py` lines 190-194):
same company, `status = "completed"`, not a duplicate, and a non-null
fingerprint. -/
def duplicateCandidates (bills : List Bill) (company_id : Nat) : List Bill :=
  bills.filter (fun b =>
    b.company_id == company_id && b.status == "completed" &&
    !b.is_duplicate && b.visual_fingerprint.isSome)

/-- The rows produced by the similarity query: each candidate paired with
the pgvector cosine distance `visual_fingerprint <=> embedding`, computed
by the store's distance operator `dist` (an external collaborator). -/
def candidateRows (dist : List ℚ → List ℚ → ℚ) (bills : List Bill)
    (company_id : Nat) (embedding : List ℚ) : List (Bill × ℚ) :=
  (duplicateCandidates bills company_id).filterMap (fun b =>
    (b.visual_fingerprint).map (fun fp => (b, dist fp embedding)))

/-- One step of selecting the row of minimal distance. -/
def minStep (best x : Bill × ℚ) : Bill × ℚ :=
  if x.2 < best.2 then x else best

/-- `ORDER BY distance LIMIT 1` over the similarity-query rows: the row of
minimal distance (the first such row on exact ties), or `none` when there
are no candidates. -/
def selectMinDistance : List (Bill × ℚ) → Option (Bill × ℚ)
  | [] => none
  | r :: rs => some (rs.foldl minStep r)

/-- Result dictionary of `_check_duplicate` (`src/app/worker.py`
lines 202-217). -/
structure DuplicateInfo where
  is_duplicate : Bool
  duplicate_id : Option Nat
  similarity : ℚ
deriving DecidableEq

/-- The `is_duplicate = False` result returned when there is no candidate
or the best similarity is below the threshold. -/
def noDuplicate : DuplicateInfo :=
  { is_duplicate := false, duplicate_id := none, similarity := 0 }

/-- `BillProcessor._check_duplicate` (`src/app/worker.py` lines 162-217):
take the candidate row of minimal cosine distance, convert distance to
similarity as `1 - distance`, and report a duplicate exactly when the
similarity reaches the threshold. -/
def _check_duplicate (dist : List ℚ → List ℚ → ℚ) (bills : List Bill)
    (company_id : Nat) (embedding : List ℚ) : DuplicateInfo :=
  match selectMinDistance (candidateRows dist bills company_id embedding) with
  | none => noDuplicate
  | some row =>
      if duplicate_threshold ≤ 1 - row.2 then
        { is_duplicate := true, duplicate_id := some row.1.id,
          similarity := 1 - row.2 }
      else noDuplicate

/-- The list of `strptime` format strings tried by
`BillProcessor._parse_date` (`src/app/worker.py` lines 226-231). -/
def dateFormats : List String :=
  ["%Y-%m-%d", "%d/%m/%Y", "%d.%m.%Y", "%Y/%m/%d"]

/-- `BillProcessor._parse_date` (`src/app/worker.py` lines 224-239): try
each format in order, return the first successful parse, or `none` when
every format raises.  `strptime` is the Python standard-library parser, an
external collaborator passed in as a function. -/
def _parse_date (strptime : String → String → Option DateTimeV)
    (date_str : String) : Option DateTimeV :=
  (dateFormats.filterMap (fun fmt => strptime date_str fmt)).head?

/-- The responses of every external collaborator consumed by one run of
`process_bill_message`: the GCS download (`Except` failure models the
raised exception), the Gemini extraction call, the embedding call, a
possible exception from the pgvector similarity query, a possible
exception from the terminal commit, and the `datetime.utcnow()` clock.
The `status = "processing"` commit and the failure-path commit are
modelled as succeeding. -/
structure ExternalWorld where
  download : Except String Unit
  geminiResponse : GeminiResponse
  embedResponse : EmbedResponse
  queryFails : Option String
  commitFails : Option String
  now : Nat

/-- A SQLAlchemy commit of the in-session bill object: the row with the
bill's primary-key id is replaced by the new value. -/
def updateBill (bills : List Bill) (id : Nat) (nb : Bill) : List Bill :=
  bills.map (fun b => if b.id == id then nb else b)

/-- The `except` branch of `process_bill_message` (`src/app/worker.py`
lines 139-143): mark the bill failed and store the exception's message. -/
def markFailed (b : Bill) (e : String) : Bill :=
  { b with status := "failed", error_message := some e }

/-- The duplicate branch of Step 5 of `process_bill_message`
(`src/app/worker.py` lines 97-106). -/
def applyDuplicate (bill : Bill) (dup : DuplicateInfo) : Bill :=
  { bill with
    status := "duplicate"
    is_duplicate := true
    duplicate_of_id := dup.duplicate_id
    similarity_score := some dup.similarity }

/-- The completed branch of Step 5 of `process_bill_message`
(`src/app/worker.py` lines 107-134): store the extracted fields, the
parsed date (only when the extracted date string is truthy), the line
items, the raw extraction, and the embedding as the fingerprint. -/
def applyExtractedData (strptime : String → String → Option DateTimeV)
    (bill : Bill) (extracted : ExtractedBillData) (embedding : List ℚ) :
    Bill :=
  { bill with
    status := "completed"
    vendor_name := some extracted.vendor_name
    vendor_tax_number := extracted.vendor_tax_number
    bill_number := extracted.bill_number
    bill_date :=
      match extracted.bill_date with
      | some ds => if ds = "" then bill.bill_date else _parse_date strptime ds
      | none => bill.bill_date
    total_amount := some extracted.total_amount
    currency := extracted.currency
    line_items := some extracted.line_items
    raw_extraction := some extracted
    visual_fingerprint := some embedding }

/-- Result of one `process_bill_message` run as seen by the delivery
adapter: early return on a missing record, normal return, or a re-raised
exception. -/
inductive ProcessOutcome where
  | notFound
  | ok
  | raised (msg : String)
deriving DecidableEq

/-- Step 5 of `process_bill_message` together with the
`processed_at = datetime.utcnow()` write (`src/app/worker.py`
lines 96-136): the in-session bill value at the terminal commit, built
from the `processing` bill, the duplicate-check result against the
committed state `bills1`, the extraction and the embedding. -/
def terminalBill (dist : List ℚ → List ℚ → ℚ)
    (strptime : String → String → Option DateTimeV) (w : ExternalWorld)
    (bills1 : List Bill) (bill1 : Bill) (m : BillUploadMessage) : Bill :=
  { (if (_check_duplicate dist bills1 m.company_id
        (generate_embedding w.embedResponse)).is_duplicate then
      applyDuplicate bill1
        (_check_duplicate dist bills1 m.company_id
          (generate_embedding w.embedResponse))
     else applyExtractedData strptime bill1
       (extract_from_image w.geminiResponse)
       (generate_embedding w.embedResponse)) with
    processed_at := some w.now }

/-- The `try` body of `process_bill_message` after the record has been
loaded and committed to `status = "processing"` (`src/app/worker.py`
lines 75-145): download, extract, embed, duplicate-check, terminal
commit, with the single `except` branch committing the `failed`
transition and re-raising. -/
def runPipelineBody (dist : List ℚ → List ℚ → ℚ)
    (strptime : String → String → Option DateTimeV) (w : ExternalWorld)
    (bills1 : List Bill) (bill1 : Bill) (m : BillUploadMessage) :
    List Bill × ProcessOutcome :=
  match w.download with
  | .error e => (updateBill bills1 m.bill_id (markFailed bill1 e), .raised e)
  | .ok _ =>
    match w.queryFails with
    | some e => (updateBill bills1 m.bill_id (markFailed bill1 e), .raised e)
    | none =>
      match w.commitFails with
      | some e =>
          (updateBill bills1 m.bill_id
            (markFailed (terminalBill dist strptime w bills1 bill1 m) e),
           .raised e)
      | none =>
          (updateBill bills1 m.bill_id
            (terminalBill dist strptime w bills1 bill1 m), .ok)

/-- `BillProcessor.process_bill_message` (`src/app/worker.py`
lines 46-145): load the record under the job's tenant (returning with no
mutation when it is missing), commit `status = "processing"`, then run the
pipeline body. -/
def process_bill_message (dist : List ℚ → List ℚ → ℚ)
    (strptime : String → String → Option DateTimeV) (w : ExternalWorld)
    (bills : List Bill) (m : BillUploadMessage) :
    List Bill × ProcessOutcome :=
  match _get_bill bills m.bill_id m.company_id with
  | none => (bills, .notFound)
  | some bill0 =>
      runPipelineBody dist strptime w
        (updateBill bills m.bill_id { bill0 with status := "processing" })
        { bill0 with status := "processing" } m

/-- Pub/Sub acknowledgement decision of the pull delivery adapter. -/
inductive AckResult where
  | ack
  | nack
deriving DecidableEq

/-- Outcome of decoding a pulled message's payload in `message_callback`:
`json.loads` may raise on malformed JSON, and `BillUploadMessage(**data)`
may raise on missing or wrong-typed fields. -/
inductive DecodeResult where
  | ok (m : BillUploadMessage)
  | malformedJson (msg : String)
  | schemaError (msg : String)
deriving DecidableEq

/-- `BillProcessor.message_callback` (`src/app/worker.py` lines 241-263):
decode and process inside one `try`; acknowledge on success, and
negatively-acknowledge on any exception, decode failures included. -/
def message_callback (dist : List ℚ → List ℚ → ℚ)
    (strptime : String → String → Option DateTimeV) (w : ExternalWorld)
    (bills : List Bill) (decode : DecodeResult) : List Bill × AckResult :=
  match decode with
  | .malformedJson _ => (bills, .nack)
  | .schemaError _ => (bills, .nack)
  | .ok m =>
    match process_bill_message dist strptime w bills m with
    | (bills', .raised _) => (bills', .nack)
    | (bills', _) => (bills', .ack)

/-- HTTP response of the push endpoint: both constructors are 2xx
responses, so both acknowledge the pushed message. -/
inductive HttpOutcome where
  | success (bill_id : Nat)
  | errorAck (msg : String)
deriving DecidableEq

/-- `pubsub_push` (`src/app/worker_service.py` lines 63-108): the push
delivery endpoint; any exception, a decode failure included, is caught
and answered with a 2xx error body, so the broker never redelivers. -/
def pubsub_push (dist : List ℚ → List ℚ → ℚ)
    (strptime : String → String → Option DateTimeV) (w : ExternalWorld)
    (bills : List Bill) (decode : Except String BillUploadMessage) :
    List Bill × HttpOutcome :=
  match decode with
  | .error e => (bills, .errorAck e)
  | .ok m =>
    match process_bill_message dist strptime w bills m with
    | (bills', .raised e) => (bills', .errorAck e)
    | (bills', _) => (bills', .success m.bill_id)

/-- Dot product of two rational vectors. -/
def dotQ (a b : List ℚ) : ℚ := (List.zipWith (fun x y => x * y) a b).sum

/-- The pgvector cosine-distance operator, exactly, on the subdomain of
unit-norm vectors, extended by the convention that a distance involving a
zero vector is `1` (similarity `0`).  Instantiates the store's `dist`
collaborator on concrete states whose fingerprints are unit or zero
vectors, where `1 - a.b / (norm a * norm b)` is the rational `1 - a.b`. -/
def cosineDistanceUnit (a b : List ℚ) : ℚ :=
  if dotQ a a = 0 ∨ dotQ b b = 0 then 1 else 1 - dotQ a b

/-- The dot product against an all-zero vector is zero. -/
lemma dotQ_replicate_zero (l : List ℚ) (n : Nat) :
    dotQ l (List.replicate n 0) = 0 := by
  induction l generalizing n with
  | nil => simp [dotQ]
  | cons x xs ih =>
    cases n with
    | zero => simp [dotQ]
    | succ k =>
      simp only [dotQ, List.replicate_succ, List.zipWith_cons_cons,
        List.sum_cons, mul_zero, zero_add]
      exact ih k

/-- On unit-domain inputs the distance to the zero vector is `1`
(similarity `0`), the stipulated zero-vector convention. -/
lemma cosineDistanceUnit_zero768 (fp : List ℚ) :
    cosineDistanceUnit fp zero768 = 1 := by
  unfold cosineDistanceUnit zero768
  rw [if_pos (Or.inr (dotQ_replicate_zero _ _))]

/-- Membership in the candidate set is exactly the `WHERE` clause of the
similarity query. -/
lemma mem_duplicateCandidates {bills : List Bill} {cid : Nat} {b : Bill} :
    b ∈ duplicateCandidates bills cid ↔
      b ∈ bills ∧ b.company_id = cid ∧ b.status = "completed" ∧
      b.is_duplicate = false ∧ b.visual_fingerprint ≠ none := by
  unfold duplicateCandidates
  simp only [List.mem_filter, Bool.and_eq_true, beq_iff_eq,
    Bool.not_eq_true', Option.isSome_iff_ne_none, and_assoc]

/-- Membership among the similarity-query rows: a candidate together with
the distance of its fingerprint to the query vector. -/
lemma mem_candidateRows {dist : List ℚ → List ℚ → ℚ} {bills : List Bill}
    {cid : Nat} {emb : List ℚ} {row : Bill × ℚ} :
    row ∈ candidateRows dist bills cid emb ↔
      row.1 ∈ duplicateCandidates bills cid ∧
      ∃ fp, row.1.visual_fingerprint = some fp ∧ row.2 = dist fp emb := by
  unfold candidateRows
  rw [List.mem_filterMap]
  constructor
  · rintro ⟨a, ha, hf⟩
    obtain ⟨fp, hfp, heq⟩ := Option.map_eq_some'.mp hf
    obtain ⟨h1, h2⟩ := Prod.mk.injEq .. ▸ heq
    subst h1
    exact ⟨ha, fp, hfp, h2.symm⟩
  · rintro ⟨ha, fp, hfp, hd⟩
    refine ⟨row.1, ha, ?_⟩
    rw [hfp, Option.map_some', ← hd]

/-- The fold selecting a minimal row stays within the considered rows. -/
lemma foldl_minStep_mem (rs : List (Bill × ℚ)) (r : Bill × ℚ) :
    rs.foldl minStep r = r ∨ rs.foldl minStep r ∈ rs := by
  induction rs generalizing r with
  | nil => exact Or.inl rfl
  | cons a rs ih =>
    rw [List.foldl_cons]
    rcases ih (minStep r a) with h | h
    · rw [h]
      unfold minStep
      by_cases hlt : a.2 < r.2
      · rw [if_pos hlt]; exact Or.inr (List.mem_cons_self _ _)
      · rw [if_neg hlt]; exact Or.inl rfl
    · exact Or.inr (List.mem_cons_of_mem _ h)

/-- The fold selecting a minimal row yields a distance below the seed and
below every considered row. -/
lemma foldl_minStep_le (rs : List (Bill × ℚ)) (r : Bill × ℚ) :
    (rs.foldl minStep r).2 ≤ r.2 ∧
    ∀ x ∈ rs, (rs.foldl minStep r).2 ≤ x.2 := by
  induction rs generalizing r with
  | nil => exact ⟨le_refl _, by intro x hx; cases hx⟩
  | cons a rs ih =>
    rw [List.foldl_cons]
    obtain ⟨h1, h2⟩ := ih (minStep r a)
    have hra : (minStep r a).2 ≤ r.2 ∧ (minStep r a).2 ≤ a.2 := by
      unfold minStep
      by_cases hlt : a.2 < r.2
      · rw [if_pos hlt]; exact ⟨le_of_lt hlt, le_refl _⟩
      · rw [if_neg hlt]; exact ⟨le_refl _, le_of_not_lt hlt⟩
    refine ⟨le_trans h1 hra.1, ?_⟩
    intro x hx
    rcases List.mem_cons.mp hx with rfl | hx
    · exact le_trans h1 hra.2
    · exact h2 x hx

/-- The selected minimal row is one of the rows. -/
lemma selectMinDistance_mem {l : List (Bill × ℚ)} {row : Bill × ℚ}
    (h : selectMinDistance l = some row) : row ∈ l := by
  cases l with
  | nil => cases h
  | cons r rs =>
    unfold selectMinDistance at h
    rcases foldl_minStep_mem rs r with hm | hm
    · rw [Option.some.injEq] at h
      rw [← h, hm]; exact List.mem_cons_self _ _
    · rw [Option.some.injEq] at h
      rw [← h]; exact List.mem_cons_of_mem _ hm

/-- The selected row has minimal distance among all rows. -/
lemma selectMinDistance_le {l : List (Bill × ℚ)} {row : Bill × ℚ}
    (h : selectMinDistance l = some row) : ∀ x ∈ l, row.2 ≤ x.2 := by
  cases l with
  | nil => cases h
  | cons r rs =>
    unfold selectMinDistance at h
    rw [Option.some.injEq] at h
    intro x hx
    obtain ⟨h1, h2⟩ := foldl_minStep_le rs r
    rcases List.mem_cons.mp hx with rfl | hx
    · rw [← h]; exact h1
    · rw [← h]; exact h2 x hx

/-- No selected row means there were no rows. -/
lemma selectMinDistance_eq_none {l : List (Bill × ℚ)}
    (h : selectMinDistance l = none) : l = [] := by
  cases l with
  | nil => rfl
  | cons r rs => cases h

/-- A successful `_get_bill` lookup yields a stored bill with the job's
record id under the job's tenant. -/
lemma _get_bill_eq_some {bills : List Bill} {i c : Nat} {b0 : Bill}
    (h : _get_bill bills i c = some b0) :
    b0 ∈ bills ∧ b0.id = i ∧ b0.company_id = c := by
  unfold _get_bill at h
  have hmem := List.mem_of_find?_eq_some h
  have hp := List.find?_some h
  simp only [Bool.and_eq_true, beq_iff_eq] at hp
  exact ⟨hmem, hp.1, hp.2⟩

/-- A member of the committed state is the committed bill or an untouched
row with a different id. -/
lemma mem_updateBill {bills : List Bill} {i : Nat} {nb b' : Bill}
    (h : b' ∈ updateBill bills i nb) :
    b' = nb ∨ (b' ∈ bills ∧ ¬ b'.id = i) := by
  unfold updateBill at h
  obtain ⟨a, ha, hae⟩ := List.mem_map.mp h
  by_cases hid : a.id = i
  · left; rw [if_pos (by simp [hid])] at hae; exact hae.symm
  · right
    rw [if_neg (by simp [hid])] at hae
    subst hae
    exact ⟨ha, hid⟩

/-- Committing a bill whose id occurs in the table puts the committed
value into the table. -/
lemma updateBill_mem_self {bills : List Bill} {i : Nat} {nb b : Bill}
    (hb : b ∈ bills) (hid : b.id = i) : nb ∈ updateBill bills i nb := by
  unfold updateBill
  exact List.mem_map.mpr ⟨b, hb, by simp [hid]⟩

/-- A unit vector of the deployment dimensionality 768 (1 at position 0). -/
def e1 : List ℚ := 1 :: List.replicate 767 0

/-- A second unit vector of dimensionality 768, orthogonal to `e1`. -/
def e2 : List ℚ := 0 :: 1 :: List.replicate 766 0

/-- A `strptime` collaborator on which every parse fails; unused by runs
whose extraction carries no date string. -/
def strptimeNone : String → String → Option DateTimeV := fun _ _ => none

/-- A freshly uploaded bill row as created by the upload endpoint
(`src/app/main.py`): `status = "pending"`, schema defaults elsewhere. -/
def pendingBill (id cid : Nat) : Bill :=
  { id := id
    company_id := cid
    vendor_name := none
    vendor_tax_number := none
    bill_number := none
    bill_date := none
    total_amount := none
    currency := "EUR"
    line_items := none
    raw_extraction := none
    visual_fingerprint := none
    status := "pending"
    error_message := none
    is_duplicate := false
    duplicate_of_id := none
    similarity_score := none
    processed_at := none }

/-- A bill that has completed processing with fingerprint `fp`. -/
def completedBill (id cid : Nat) (fp : List ℚ) : Bill :=
  { pendingBill id cid with
    status := "completed"
    visual_fingerprint := some fp
    processed_at := some 1 }

/-- The concrete completed candidate used by witnesses. -/
def witnessCandidate : Bill := completedBill 2 1 e1

/-- A concrete job message for record 1 of tenant 1. -/
def msg1 : BillUploadMessage :=
  { bill_id := 1
    company_id := 1
    storage_path := "bills/1/1.jpg"
    mime_type := "image/jpeg"
    uploaded_at := "2026-01-01T00:00:00Z" }

/-- A concrete world where the download succeeds, the extraction call
times out (so the fallback record is used), the embedding call returns
`e1`, and the query and commit succeed at time 7. -/
def wOk : ExternalWorld :=
  { download := .ok ()
    geminiResponse := .failure "timeout"
    embedResponse := .ok e1
    queryFails := none
    commitFails := none
    now := 7 }

/-- A concrete world where the GCS download raises. -/
def wBlobFail : ExternalWorld := { wOk with download := .error "blob missing" }

/-- When the similarity query returns no row, `_check_duplicate` reports
no duplicate. -/
lemma _check_duplicate_none {dist : List ℚ → List ℚ → ℚ}
    {bills : List Bill} {cid : Nat} {emb : List ℚ}
    (hsel : selectMinDistance (candidateRows dist bills cid emb) = none) :
    _check_duplicate dist bills cid emb = noDuplicate := by
  unfold _check_duplicate
  rw [hsel]

/-- When the similarity query returns a best row, `_check_duplicate`
thresholds its similarity `1 - distance`. -/
lemma _check_duplicate_some {dist : List ℚ → List ℚ → ℚ}
    {bills : List Bill} {cid : Nat} {emb : List ℚ} {row : Bill × ℚ}
    (hsel : selectMinDistance (candidateRows dist bills cid emb) =
      some row) :
    _check_duplicate dist bills cid emb =
      if duplicate_threshold ≤ 1 - row.2 then
        { is_duplicate := true, duplicate_id := some row.1.id,
          similarity := 1 - row.2 }
      else noDuplicate := by
  unfold _check_duplicate
  rw [hsel]

/-- The dot product distributes over the heads of two vectors. -/
lemma dotQ_cons (x y : ℚ) (xs ys : List ℚ) :
    dotQ (x :: xs) (y :: ys) = x * y + dotQ xs ys := by
  simp [dotQ]

/-- The concrete vector `e1` has unit norm. -/
lemma dotQ_e1_e1 : dotQ e1 e1 = 1 := by
  rw [e1, dotQ_cons, dotQ_replicate_zero]
  norm_num

/-- The cosine distance of `e1` to itself is `0` (similarity `1`). -/
lemma cosineDistanceUnit_e1_e1 : cosineDistanceUnit e1 e1 = 0 := by
  rw [cosineDistanceUnit, dotQ_e1_e1]
  norm_num

/-- C1: the duplicate search for a record of tenant `cid` only considers
candidates of tenant `cid`, and whenever it returns a candidate id, that
id belongs to a stored bill of tenant `cid`: no candidate of another
tenant is ever considered or returned. -/
theorem C1_tenant_isolation (dist : List ℚ → List ℚ → ℚ)
    (bills : List Bill) (cid : Nat) (emb : List ℚ) :
    (∀ b ∈ duplicateCandidates bills cid, b.company_id = cid) ∧
    (∀ i, (_check_duplicate dist bills cid emb).duplicate_id = some i →
      ∃ b ∈ bills, b.id = i ∧ b.company_id = cid) := by
  constructor
  · intro b hb
    exact (mem_duplicateCandidates.mp hb).2.1
  · intro i hi
    rcases hsel : selectMinDistance (candidateRows dist bills cid emb) with
      _ | row
    · rw [_check_duplicate_none hsel] at hi; cases hi
    · rw [_check_duplicate_some hsel] at hi
      by_cases hth : duplicate_threshold ≤ 1 - row.2
      · rw [if_pos hth] at hi
        rw [Option.some.injEq] at hi
        have hcand := (mem_candidateRows.mp (selectMinDistance_mem hsel)).1
        obtain ⟨hmem, hc, _, _, _⟩ := mem_duplicateCandidates.mp hcand
        exact ⟨row.1, hmem, hi, hc⟩
      · rw [if_neg hth] at hi; cases hi

/-- The duplicate check on the concrete one-candidate store finds record 2
with similarity `1`. -/
lemma checkDup_witness :
    _check_duplicate cosineDistanceUnit [witnessCandidate] 1 e1 =
      { is_duplicate := true, duplicate_id := some 2, similarity := 1 } := by
  have hsel : selectMinDistance
      (candidateRows cosineDistanceUnit [witnessCandidate] 1 e1) =
      some (witnessCandidate, cosineDistanceUnit e1 e1) := rfl
  rw [_check_duplicate_some hsel]
  simp only [cosineDistanceUnit_e1_e1]
  rw [if_pos (by norm_num [duplicate_threshold])]
  norm_num
  rfl

/-- C1 witness: on a concrete one-tenant store the search returns
candidate id 2, and that id belongs to a stored bill of tenant 1. -/
theorem C1_tenant_isolation_witness :
    witnessCandidate.id = 2 ∧ witnessCandidate.company_id = 1 := by
  obtain ⟨b, hmem, hid, hcid⟩ :=
    (C1_tenant_isolation cosineDistanceUnit [witnessCandidate] 1 e1).2 2
      (by rw [checkDup_witness])
  rw [List.mem_singleton] at hmem
  subst hmem
  exact ⟨hid, hcid⟩

/-- C2: `_check_duplicate` restricts the candidate set to same-tenant
records with `status = "completed"`, not marked duplicate and with a
non-null fingerprint; when it declares a duplicate it returns the id of a
candidate of minimal cosine distance together with the similarity
`1 - distance`, which reaches the threshold `0.95`; and it declares
unique exactly when no candidate's similarity reaches the threshold. -/
theorem C2_find_duplicate_spec (dist : List ℚ → List ℚ → ℚ)
    (bills : List Bill) (cid : Nat) (emb : List ℚ) :
    (∀ b, b ∈ duplicateCandidates bills cid ↔
      (b ∈ bills ∧ b.company_id = cid ∧ b.status = "completed" ∧
       b.is_duplicate = false ∧ b.visual_fingerprint ≠ none)) ∧
    ((_check_duplicate dist bills cid emb).is_duplicate = true →
      ∃ b fp, b ∈ duplicateCandidates bills cid ∧
        b.visual_fingerprint = some fp ∧
        (_check_duplicate dist bills cid emb).duplicate_id = some b.id ∧
        (_check_duplicate dist bills cid emb).similarity = 1 - dist fp emb ∧
        duplicate_threshold ≤ 1 - dist fp emb ∧
        (∀ b' fp', b' ∈ duplicateCandidates bills cid →
          b'.visual_fingerprint = some fp' →
          dist fp emb ≤ dist fp' emb)) ∧
    ((_check_duplicate dist bills cid emb).is_duplicate = false →
      _check_duplicate dist bills cid emb = noDuplicate ∧
      ∀ b fp, b ∈ duplicateCandidates bills cid →
        b.visual_fingerprint = some fp →
        1 - dist fp emb < duplicate_threshold) := by
  refine ⟨fun b => mem_duplicateCandidates, ?_, ?_⟩
  · intro hdup
    rcases hsel : selectMinDistance (candidateRows dist bills cid emb) with
      _ | row
    · rw [_check_duplicate_none hsel] at hdup; cases hdup
    · have hrow := mem_candidateRows.mp (selectMinDistance_mem hsel)
      obtain ⟨hcand, fp, hfp, hd⟩ := hrow
      by_cases hth : duplicate_threshold ≤ 1 - row.2
      · refine ⟨row.1, fp, hcand, hfp, ?_, ?_, ?_, ?_⟩
        · rw [_check_duplicate_some hsel, if_pos hth]
        · rw [_check_duplicate_some hsel, if_pos hth, ← hd]
        · rw [← hd]; exact hth
        · intro b' fp' hb' hfp'
          have hmem : (b', dist fp' emb) ∈ candidateRows dist bills cid emb :=
            mem_candidateRows.mpr ⟨hb', fp', hfp', rfl⟩
          have := selectMinDistance_le hsel _ hmem
          rw [hd] at this
          exact this
      · rw [_check_duplicate_some hsel, if_neg hth] at hdup; cases hdup
  · intro hdup
    rcases hsel : selectMinDistance (candidateRows dist bills cid emb) with
      _ | row
    · have hempty := selectMinDistance_eq_none hsel
      refine ⟨_check_duplicate_none hsel, ?_⟩
      intro b fp hb hfp
      have hmem : (b, dist fp emb) ∈ candidateRows dist bills cid emb :=
        mem_candidateRows.mpr ⟨hb, fp, hfp, rfl⟩
      rw [hempty] at hmem
      cases hmem
    · by_cases hth : duplicate_threshold ≤ 1 - row.2
      · rw [_check_duplicate_some hsel, if_pos hth] at hdup; cases hdup
      · refine ⟨by rw [_check_duplicate_some hsel, if_neg hth], ?_⟩
        intro b fp hb hfp
        have hmem : (b, dist fp emb) ∈ candidateRows dist bills cid emb :=
          mem_candidateRows.mpr ⟨hb, fp, hfp, rfl⟩
        have hle := selectMinDistance_le hsel _ hmem
        have hlt := lt_of_not_le hth
        calc 1 - dist fp emb ≤ 1 - row.2 := by
              have : (row.2 : ℚ) ≤ dist fp emb := hle
              linarith
          _ < duplicate_threshold := hlt

/-- C2 witness: on the concrete one-candidate store the search declares a
duplicate; the candidate passes the `WHERE` filters and its similarity
`1 - distance` reaches the threshold. -/
theorem C2_find_duplicate_spec_witness :
    witnessCandidate ∈ duplicateCandidates [witnessCandidate] 1 ∧
    duplicate_threshold ≤ 1 - cosineDistanceUnit e1 e1 := by
  obtain ⟨b, fp, hcand, hfp, hid, hsim, hth, hmin⟩ :=
    (C2_find_duplicate_spec cosineDistanceUnit [witnessCandidate] 1 e1).2.1
      (by rw [checkDup_witness])
  have hb : b ∈ [witnessCandidate] := (mem_duplicateCandidates.mp hcand).1
  rw [List.mem_singleton] at hb
  subst hb
  have hfpe : fp = e1 := Option.some_inj.mp
    (hfp.symm.trans (show witnessCandidate.visual_fingerprint = some e1 from
      rfl))
  subst hfpe
  exact ⟨hcand, hth⟩

/-- C6: when the duplicate detector is given the embedding client's
failure fallback — the all-zero 768-dimensional vector — under the
convention that cosine similarity involving the zero vector is `0`
(distance `1`), no candidate's similarity reaches the `0.95` threshold
and the record is never classified as a duplicate of any candidate. -/
theorem C6_zero_vector_never_duplicate (dist : List ℚ → List ℚ → ℚ)
    (bills : List Bill) (cid : Nat) (msg : String)
    (hconv : ∀ fp, dist fp zero768 = 1) :
    _check_duplicate dist bills cid
      (generate_embedding (EmbedResponse.failure msg)) = noDuplicate := by
  have hemb : generate_embedding (EmbedResponse.failure msg) = zero768 := rfl
  rw [hemb]
  rcases hsel : selectMinDistance (candidateRows dist bills cid zero768) with
    _ | row
  · exact _check_duplicate_none hsel
  · obtain ⟨hc, fp, hfp, hd⟩ :=
      mem_candidateRows.mp (selectMinDistance_mem hsel)
    rw [_check_duplicate_some hsel,
      if_neg (by rw [hd, hconv fp]; norm_num [duplicate_threshold])]

/-- C6 witness: on a concrete store holding a completed unit-norm
candidate, the zero-vector fallback embedding is declared unique. -/
theorem C6_zero_vector_never_duplicate_witness :
    _check_duplicate cosineDistanceUnit [witnessCandidate] 1
      (generate_embedding (EmbedResponse.failure "rate limit")) =
      noDuplicate :=
  C6_zero_vector_never_duplicate cosineDistanceUnit [witnessCandidate] 1
    "rate limit" cosineDistanceUnit_zero768

/-- When the record is found, processing commits the `processing` status
and runs the pipeline body on the committed state. -/
lemma process_found {dist : List ℚ → List ℚ → ℚ}
    {strptime : String → String → Option DateTimeV} {w : ExternalWorld}
    {bills : List Bill} {m : BillUploadMessage} {b0 : Bill}
    (hfound : _get_bill bills m.bill_id m.company_id = some b0) :
    process_bill_message dist strptime w bills m =
      runPipelineBody dist strptime w
        (updateBill bills m.bill_id { b0 with status := "processing" })
        { b0 with status := "processing" } m := by
  unfold process_bill_message
  rw [hfound]

/-- A failing GCS download commits the `failed` transition and re-raises. -/
lemma runPipelineBody_download_error {dist : List ℚ → List ℚ → ℚ}
    {strptime : String → String → Option DateTimeV} {w : ExternalWorld}
    {bills1 : List Bill} {bill1 : Bill} {m : BillUploadMessage} {e : String}
    (hdl : w.download = .error e) :
    runPipelineBody dist strptime w bills1 bill1 m =
      (updateBill bills1 m.bill_id (markFailed bill1 e), .raised e) := by
  unfold runPipelineBody
  rw [hdl]

/-- A failing similarity query commits the `failed` transition and
re-raises. -/
lemma runPipelineBody_query_error {dist : List ℚ → List ℚ → ℚ}
    {strptime : String → String → Option DateTimeV} {w : ExternalWorld}
    {bills1 : List Bill} {bill1 : Bill} {m : BillUploadMessage} {e : String}
    (hdl : w.download = .ok ()) (hq : w.queryFails = some e) :
    runPipelineBody dist strptime w bills1 bill1 m =
      (updateBill bills1 m.bill_id (markFailed bill1 e), .raised e) := by
  unfold runPipelineBody
  rw [hdl, hq]

/-- A failing terminal commit commits the `failed` transition over the
in-session terminal bill and re-raises. -/
lemma runPipelineBody_commit_error {dist : List ℚ → List ℚ → ℚ}
    {strptime : String → String → Option DateTimeV} {w : ExternalWorld}
    {bills1 : List Bill} {bill1 : Bill} {m : BillUploadMessage} {e : String}
    (hdl : w.download = .ok ()) (hq : w.queryFails = none)
    (hc : w.commitFails = some e) :
    runPipelineBody dist strptime w bills1 bill1 m =
      (updateBill bills1 m.bill_id
        (markFailed (terminalBill dist strptime w bills1 bill1 m) e),
       .raised e) := by
  unfold runPipelineBody
  rw [hdl, hq, hc]

/-- When every external step succeeds the terminal bill is committed. -/
lemma runPipelineBody_ok {dist : List ℚ → List ℚ → ℚ}
    {strptime : String → String → Option DateTimeV} {w : ExternalWorld}
    {bills1 : List Bill} {bill1 : Bill} {m : BillUploadMessage}
    (hdl : w.download = .ok ()) (hq : w.queryFails = none)
    (hc : w.commitFails = none) :
    runPipelineBody dist strptime w bills1 bill1 m =
      (updateBill bills1 m.bill_id
        (terminalBill dist strptime w bills1 bill1 m), .ok) := by
  unfold runPipelineBody
  rw [hdl, hq, hc]

/-- The duplicate branch of the terminal bill. -/
lemma terminalBill_dup {dist : List ℚ → List ℚ → ℚ}
    {strptime : String → String → Option DateTimeV} {w : ExternalWorld}
    {bills1 : List Bill} {bill1 : Bill} {m : BillUploadMessage}
    (h : (_check_duplicate dist bills1 m.company_id
      (generate_embedding w.embedResponse)).is_duplicate = true) :
    terminalBill dist strptime w bills1 bill1 m =
      { applyDuplicate bill1
          (_check_duplicate dist bills1 m.company_id
            (generate_embedding w.embedResponse)) with
        processed_at := some w.now } := by
  unfold terminalBill
  rw [if_pos h]

/-- The completed branch of the terminal bill. -/
lemma terminalBill_completed {dist : List ℚ → List ℚ → ℚ}
    {strptime : String → String → Option DateTimeV} {w : ExternalWorld}
    {bills1 : List Bill} {bill1 : Bill} {m : BillUploadMessage}
    (h : (_check_duplicate dist bills1 m.company_id
      (generate_embedding w.embedResponse)).is_duplicate = false) :
    terminalBill dist strptime w bills1 bill1 m =
      { applyExtractedData strptime bill1
          (extract_from_image w.geminiResponse)
          (generate_embedding w.embedResponse) with
        processed_at := some w.now } := by
  unfold terminalBill
  rw [if_neg (by intro hc; rw [h] at hc; exact Bool.false_ne_true hc)]

/-- The terminal bill keeps the record's id in both branches. -/
lemma terminalBill_id {dist : List ℚ → List ℚ → ℚ}
    {strptime : String → String → Option DateTimeV} {w : ExternalWorld}
    {bills1 : List Bill} {bill1 : Bill} {m : BillUploadMessage} :
    (terminalBill dist strptime w bills1 bill1 m).id = bill1.id := by
  unfold terminalBill
  split
  · rfl
  · rfl

/-- C7: once the record has been loaded, every exception injected at the
blob fetch, the duplicate-search query or the terminal commit makes the
run re-raise that exception; and whenever the run re-raises an exception,
the committed state holds the record transitioned to `status = "failed"`
with the exception's message as the error detail. -/
theorem C7_failure_path_spec (dist : List ℚ → List ℚ → ℚ)
    (strptime : String → String → Option DateTimeV) (w : ExternalWorld)
    (bills : List Bill) (m : BillUploadMessage) (b0 : Bill)
    (hfound : _get_bill bills m.bill_id m.company_id = some b0) :
    (∀ e, w.download = .error e →
      (process_bill_message dist strptime w bills m).2 = .raised e) ∧
    (∀ e, w.download = .ok () → w.queryFails = some e →
      (process_bill_message dist strptime w bills m).2 = .raised e) ∧
    (∀ e, w.download = .ok () → w.queryFails = none →
      w.commitFails = some e →
      (process_bill_message dist strptime w bills m).2 = .raised e) ∧
    (∀ e, (process_bill_message dist strptime w bills m).2 = .raised e →
      ∃ b', b' ∈ (process_bill_message dist strptime w bills m).1 ∧
        b'.id = m.bill_id ∧ b'.status = "failed" ∧
        b'.error_message = some e) := by
  obtain ⟨hb0mem, hb0id, _⟩ := _get_bill_eq_some hfound
  have hmem1 : ({ b0 with status := "processing" } : Bill) ∈
      updateBill bills m.bill_id { b0 with status := "processing" } :=
    updateBill_mem_self hb0mem hb0id
  rw [process_found hfound]
  refine ⟨?_, ?_, ?_, ?_⟩
  · intro e hdl
    rw [runPipelineBody_download_error hdl]
  · intro e hdl hq
    rw [runPipelineBody_query_error hdl hq]
  · intro e hdl hq hc
    rw [runPipelineBody_commit_error hdl hq hc]
  · intro e hraised
    rcases hdl : w.download with e0 | u
    · rw [runPipelineBody_download_error hdl] at hraised ⊢
      have he : e0 = e := by cases hraised; rfl
      subst he
      exact ⟨markFailed { b0 with status := "processing" } e0,
        updateBill_mem_self hmem1 hb0id, hb0id, rfl, rfl⟩
    · rcases hq : w.queryFails with _ | e0
      · rcases hc : w.commitFails with _ | e0
        · rw [runPipelineBody_ok (by rw [hdl]) hq hc] at hraised
          cases hraised
        · rw [runPipelineBody_commit_error (by rw [hdl]) hq hc] at hraised ⊢
          have he : e0 = e := by cases hraised; rfl
          subst he
          refine ⟨markFailed (terminalBill dist strptime w
            (updateBill bills m.bill_id { b0 with status := "processing" })
            { b0 with status := "processing" } m) e0, ?_, ?_, rfl, rfl⟩
          · exact updateBill_mem_self hmem1 hb0id
          · show (terminalBill dist strptime w _ _ m).id = m.bill_id
            rw [terminalBill_id]
            exact hb0id
      · rw [runPipelineBody_query_error (by rw [hdl]) hq] at hraised ⊢
        have he : e0 = e := by cases hraised; rfl
        subst he
        exact ⟨markFailed { b0 with status := "processing" } e0,
          updateBill_mem_self hmem1 hb0id, hb0id, rfl, rfl⟩

/-- C7 witness: a concrete failing blob download re-raises its message to
the adapter. -/
theorem C7_failure_path_spec_witness :
    (process_bill_message cosineDistanceUnit strptimeNone wBlobFail
      [pendingBill 1 1] msg1).2 = .raised "blob missing" :=
  (C7_failure_path_spec cosineDistanceUnit strptimeNone wBlobFail
    [pendingBill 1 1] msg1 (pendingBill 1 1) rfl).1 "blob missing" rfl

/-- C8: when the record identified by the job does not exist under the
job's tenant, processing returns without raising, mutates no record, and
the pull adapter acknowledges the message. -/
theorem C8_missing_record_dropped (dist : List ℚ → List ℚ → ℚ)
    (strptime : String → String → Option DateTimeV) (w : ExternalWorld)
    (bills : List Bill) (m : BillUploadMessage)
    (hnone : _get_bill bills m.bill_id m.company_id = none) :
    process_bill_message dist strptime w bills m = (bills, .notFound) ∧
    message_callback dist strptime w bills (.ok m) = (bills, .ack) := by
  have h1 : process_bill_message dist strptime w bills m =
      (bills, .notFound) := by
    unfold process_bill_message
    rw [hnone]
  refine ⟨h1, ?_⟩
  have h2 : message_callback dist strptime w bills (.ok m) =
      match process_bill_message dist strptime w bills m with
      | (bills', .raised _) => (bills', .nack)
      | (bills', _) => (bills', .ack) := rfl
  rw [h2, h1]

/-- C8 witness: a job whose record is absent from the store is dropped
and acknowledged. -/
theorem C8_missing_record_dropped_witness :
    process_bill_message cosineDistanceUnit strptimeNone wOk [] msg1 =
      ([], .notFound) ∧
    message_callback cosineDistanceUnit strptimeNone wOk [] (.ok msg1) =
      ([], .ack) :=
  C8_missing_record_dropped cosineDistanceUnit strptimeNone wOk [] msg1 rfl

/-- C4 counterexample: the pull adapter `message_callback` negatively
acknowledges a message whose payload is malformed JSON — it does not
acknowledge it, so the claim that decode failures are acknowledged is
false on this input. -/
theorem C4_decode_failure_counterexample :
    message_callback cosineDistanceUnit strptimeNone wOk []
      (DecodeResult.malformedJson "Expecting value: line 1 column 1") =
      ([], .nack) ∧
    AckResult.nack ≠ AckResult.ack :=
  ⟨rfl, fun h => AckResult.noConfusion h⟩

/-- C4 amended: the pull adapter `message_callback` negatively
acknowledges every message whose payload fails to decode (malformed JSON
or schema validation), so such a message is redelivered; only the HTTP
push adapter `pubsub_push` answers a decode failure with a 2xx
acknowledgement. -/
theorem C4_decode_failure_redelivered (dist : List ℚ → List ℚ → ℚ)
    (strptime : String → String → Option DateTimeV) (w : ExternalWorld)
    (bills : List Bill) (e : String) :
    message_callback dist strptime w bills (.malformedJson e) =
      (bills, .nack) ∧
    message_callback dist strptime w bills (.schemaError e) =
      (bills, .nack) ∧
    pubsub_push dist strptime w bills (.error e) = (bills, .errorAck e) :=
  ⟨rfl, rfl, rfl⟩

/-- Any row of the committed state carrying the processed record's id is
either a `failed` commit of the `processing` bill, a `failed` commit of
the in-session terminal bill, or the terminal bill itself. -/
lemma process_found_mem {dist : List ℚ → List ℚ → ℚ}
    {strptime : String → String → Option DateTimeV} {w : ExternalWorld}
    {bills : List Bill} {m : BillUploadMessage} {b0 : Bill}
    (hfound : _get_bill bills m.bill_id m.company_id = some b0) :
    ∀ b', b' ∈ (process_bill_message dist strptime w bills m).1 →
      b'.id = m.bill_id →
      (∃ e, b' = markFailed { b0 with status := "processing" } e) ∨
      (∃ e, b' = markFailed (terminalBill dist strptime w
        (updateBill bills m.bill_id { b0 with status := "processing" })
        { b0 with status := "processing" } m) e) ∨
      b' = terminalBill dist strptime w
        (updateBill bills m.bill_id { b0 with status := "processing" })
        { b0 with status := "processing" } m := by
  rw [process_found hfound]
  intro b' hmem hid
  rcases hdl : w.download with e0 | u
  · rw [runPipelineBody_download_error hdl] at hmem
    rcases mem_updateBill hmem with rfl | ⟨_, hne⟩
    · exact Or.inl ⟨e0, rfl⟩
    · exact absurd hid hne
  · rcases hq : w.queryFails with _ | e0
    · rcases hc : w.commitFails with _ | e0
      · rw [runPipelineBody_ok (by rw [hdl]) hq hc] at hmem
        rcases mem_updateBill hmem with rfl | ⟨_, hne⟩
        · exact Or.inr (Or.inr rfl)
        · exact absurd hid hne
      · rw [runPipelineBody_commit_error (by rw [hdl]) hq hc] at hmem
        rcases mem_updateBill hmem with rfl | ⟨_, hne⟩
        · exact Or.inr (Or.inl ⟨e0, rfl⟩)
        · exact absurd hid hne
    · rw [runPipelineBody_query_error (by rw [hdl]) hq] at hmem
      rcases mem_updateBill hmem with rfl | ⟨_, hne⟩
      · exact Or.inl ⟨e0, rfl⟩
      · exact absurd hid hne

/-- C9 amended: a `status = "duplicate"` record is never a candidate of
the similarity search; and on a pipeline run over a record that carried
no fingerprint, the duplicate terminal outcome never writes one — a
record that ends the run with `status = "duplicate"` still has no
fingerprint.  (A fingerprint can persist on a duplicate record only when
an already-completed record is reprocessed.) -/
theorem C9_fingerprint_only_on_completed (dist : List ℚ → List ℚ → ℚ)
    (strptime : String → String → Option DateTimeV) (w : ExternalWorld)
    (bills : List Bill) (m : BillUploadMessage) (b0 : Bill)
    (hfound : _get_bill bills m.bill_id m.company_id = some b0)
    (hfp : b0.visual_fingerprint = none) :
    (∀ cid b, b ∈ duplicateCandidates bills cid → b.status ≠ "duplicate") ∧
    (∀ b', b' ∈ (process_bill_message dist strptime w bills m).1 →
      b'.id = m.bill_id → b'.status = "duplicate" →
      b'.visual_fingerprint = none) := by
  constructor
  · intro cid b hb heq
    have hst := (mem_duplicateCandidates.mp hb).2.2.1
    rw [heq] at hst
    exact absurd hst (by decide)
  · intro b' hmem hid hst
    rcases process_found_mem hfound b' hmem hid with ⟨e, rfl⟩ | ⟨e, rfl⟩ | rfl
    · simp [markFailed] at hst
    · simp [markFailed] at hst
    · cases hdup : (_check_duplicate dist
        (updateBill bills m.bill_id { b0 with status := "processing" })
        m.company_id (generate_embedding w.embedResponse)).is_duplicate with
      | true =>
        rw [terminalBill_dup hdup]
        exact hfp
      | false =>
        rw [terminalBill_completed hdup] at hst
        simp [applyExtractedData] at hst

/-- C10: on a run whose processed record ends with
`status = "duplicate"`, only the status, duplicate flag, duplicate-of
reference, similarity score and processed timestamp are written: every
extracted field, the fingerprint and the error detail keep the values the
record had when the job was accepted. -/
theorem C10_duplicate_outcome_frame (dist : List ℚ → List ℚ → ℚ)
    (strptime : String → String → Option DateTimeV) (w : ExternalWorld)
    (bills : List Bill) (m : BillUploadMessage) (b0 : Bill)
    (hfound : _get_bill bills m.bill_id m.company_id = some b0) :
    ∀ b', b' ∈ (process_bill_message dist strptime w bills m).1 →
      b'.id = m.bill_id → b'.status = "duplicate" →
      b'.vendor_name = b0.vendor_name ∧
      b'.vendor_tax_number = b0.vendor_tax_number ∧
      b'.bill_number = b0.bill_number ∧
      b'.bill_date = b0.bill_date ∧
      b'.total_amount = b0.total_amount ∧
      b'.currency = b0.currency ∧
      b'.line_items = b0.line_items ∧
      b'.raw_extraction = b0.raw_extraction ∧
      b'.visual_fingerprint = b0.visual_fingerprint ∧
      b'.error_message = b0.error_message := by
  intro b' hmem hid hst
  rcases process_found_mem hfound b' hmem hid with ⟨e, rfl⟩ | ⟨e, rfl⟩ | rfl
  · simp [markFailed] at hst
  · simp [markFailed] at hst
  · cases hdup : (_check_duplicate dist
      (updateBill bills m.bill_id { b0 with status := "processing" })
      m.company_id (generate_embedding w.embedResponse)).is_duplicate with
    | true =>
      rw [terminalBill_dup hdup]
      exact ⟨rfl, rfl, rfl, rfl, rfl, rfl, rfl, rfl, rfl, rfl⟩
    | false =>
      rw [terminalBill_completed hdup] at hst
      simp [applyExtractedData] at hst

/-- A completed, already-processed record of tenant 1 (terminal state)
whose job is redelivered in the reprocessing scenario. -/
def shopBill : Bill :=
  { completedBill 1 1 e1 with vendor_name := some "ShopCo" }

/-- A store holding two completed records of tenant 1 with identical
fingerprints: the processed record and candidate 2. -/
def reprocBills : List Bill := [shopBill, witnessCandidate]

/-- The record the reprocessing run commits in place of the terminal
`shopBill`. -/
def reprocResultBill : Bill :=
  { shopBill with
    status := "duplicate"
    is_duplicate := true
    duplicate_of_id := some 2
    similarity_score := some 1
    processed_at := some 7 }

/-- The duplicate check of the reprocessing run matches candidate 2 with
similarity `1`. -/
lemma checkDup_reproc :
    _check_duplicate cosineDistanceUnit
      (updateBill reprocBills msg1.bill_id
        { shopBill with status := "processing" })
      msg1.company_id (generate_embedding wOk.embedResponse) =
      { is_duplicate := true, duplicate_id := some 2, similarity := 1 } := by
  have hsel : selectMinDistance (candidateRows cosineDistanceUnit
      (updateBill reprocBills msg1.bill_id
        { shopBill with status := "processing" })
      msg1.company_id (generate_embedding wOk.embedResponse)) =
      some (witnessCandidate, cosineDistanceUnit e1 e1) := rfl
  rw [_check_duplicate_some hsel]
  simp only [cosineDistanceUnit_e1_e1]
  rw [if_pos (by norm_num [duplicate_threshold])]
  norm_num
  rfl

/-- Full evaluation of the reprocessing run: the terminal `completed`
record is loaded again, re-enters `processing`, and is committed as a
duplicate of candidate 2. -/
lemma process_reproc :
    process_bill_message cosineDistanceUnit strptimeNone wOk reprocBills
      msg1 = ([reprocResultBill, witnessCandidate], .ok) := by
  have hfound : _get_bill reprocBills msg1.bill_id msg1.company_id =
      some shopBill := rfl
  rw [process_found hfound, runPipelineBody_ok rfl rfl rfl]
  rw [terminalBill_dup (by rw [checkDup_reproc])]
  rw [checkDup_reproc]
  rfl

/-- C3: the record of the redelivered job is already terminal
(`status = "completed"`) and carries no duplicate-of reference, yet
processing the same job again returns normally and commits the record
mutated into a duplicate of record 2 — the pipeline reprocesses a
terminal record and creates a duplicate-of edge. -/
theorem C3_terminal_record_reprocessed :
    shopBill.status = "completed" ∧
    shopBill.duplicate_of_id = none ∧
    (process_bill_message cosineDistanceUnit strptimeNone wOk reprocBills
      msg1).2 = .ok ∧
    (process_bill_message cosineDistanceUnit strptimeNone wOk reprocBills
      msg1).1.head? = some reprocResultBill ∧
    reprocResultBill.status = "duplicate" ∧
    reprocResultBill.duplicate_of_id = some 2 := by
  refine ⟨rfl, rfl, ?_, ?_, rfl, rfl⟩
  · rw [process_reproc]
  · rw [process_reproc]
    rfl

/-- C9 counterexample: the reprocessing run ends with the processed
record in `status = "duplicate"` while still carrying its fingerprint
`e1` — a pipeline run after which a duplicate record has a fingerprint,
contradicting the claim that this never happens. -/
theorem C9_duplicate_with_fingerprint_counterexample :
    (process_bill_message cosineDistanceUnit strptimeNone wOk reprocBills
      msg1).1.head?.map (fun b => (b.status, b.visual_fingerprint)) =
      some ("duplicate", some e1) ∧
    some e1 ≠ (none : Option (List ℚ)) := by
  refine ⟨?_, fun h => Option.noConfusion h⟩
  rw [process_reproc]
  rfl

/-- A store holding the fresh pending record 1 and the completed
candidate 2 of the same tenant. -/
def dupBills : List Bill := [pendingBill 1 1, witnessCandidate]

/-- The record committed by the duplicate-outcome run over `dupBills`. -/
def dupRunBill : Bill :=
  { pendingBill 1 1 with
    status := "duplicate"
    is_duplicate := true
    duplicate_of_id := some 2
    similarity_score := some 1
    processed_at := some 7 }

/-- The duplicate check of the `dupBills` run matches candidate 2 with
similarity `1`. -/
lemma checkDup_dupRun :
    _check_duplicate cosineDistanceUnit
      (updateBill dupBills msg1.bill_id
        { pendingBill 1 1 with status := "processing" })
      msg1.company_id (generate_embedding wOk.embedResponse) =
      { is_duplicate := true, duplicate_id := some 2, similarity := 1 } := by
  have hsel : selectMinDistance (candidateRows cosineDistanceUnit
      (updateBill dupBills msg1.bill_id
        { pendingBill 1 1 with status := "processing" })
      msg1.company_id (generate_embedding wOk.embedResponse)) =
      some (witnessCandidate, cosineDistanceUnit e1 e1) := rfl
  rw [_check_duplicate_some hsel]
  simp only [cosineDistanceUnit_e1_e1]
  rw [if_pos (by norm_num [duplicate_threshold])]
  norm_num
  rfl

/-- Full evaluation of the run over `dupBills`: the pending record is
committed as a duplicate of candidate 2. -/
lemma process_dupRun :
    process_bill_message cosineDistanceUnit strptimeNone wOk dupBills
      msg1 = ([dupRunBill, witnessCandidate], .ok) := by
  have hfound : _get_bill dupBills msg1.bill_id msg1.company_id =
      some (pendingBill 1 1) := rfl
  rw [process_found hfound, runPipelineBody_ok rfl rfl rfl]
  rw [terminalBill_dup (by rw [checkDup_dupRun])]
  rw [checkDup_dupRun]
  rfl

/-- C5 counterexample: the extraction call fails (times out), the rest of
the pipeline succeeds, yet the record is committed with
`status = "duplicate"`, not `status = "completed"` — against a store that
already holds a completed record whose fingerprint matches the sentinel's
embedding, the universally claimed `completed` outcome is false. -/
theorem C5_extraction_failure_can_yield_duplicate :
    wOk.geminiResponse = GeminiResponse.failure "timeout" ∧
    (process_bill_message cosineDistanceUnit strptimeNone wOk dupBills
      msg1).2 = .ok ∧
    (process_bill_message cosineDistanceUnit strptimeNone wOk dupBills
      msg1).1.head?.map Bill.status = some "duplicate" ∧
    ("duplicate" : String) ≠ "completed" := by
  refine ⟨rfl, ?_, ?_, by decide⟩
  · rw [process_dupRun]
  · rw [process_dupRun]
    rfl

/-- C5 amended: on every failure of the extraction call (raised error,
empty response, schema-validation failure) `extract_from_image` returns
the sentinel record with vendor name "Extraction Failed", total `0`,
confidence `0` and no line items, it never raises; and when the remaining
steps succeed the pipeline returns normally and commits the record with
`status = "completed"` — carrying the sentinel fields — whenever the
duplicate search finds no match, and with `status = "duplicate"` when it
does; never with `status = "failed"`. -/
theorem C5_extraction_fallback_spec (dist : List ℚ → List ℚ → ℚ)
    (strptime : String → String → Option DateTimeV) (w : ExternalWorld)
    (bills : List Bill) (m : BillUploadMessage) (b0 : Bill)
    (hresp : ∀ d, w.geminiResponse ≠ GeminiResponse.ok d)
    (hfound : _get_bill bills m.bill_id m.company_id = some b0)
    (hdl : w.download = .ok ()) (hq : w.queryFails = none)
    (hc : w.commitFails = none) :
    extract_from_image w.geminiResponse = extractionFailedFallback ∧
    (extract_from_image w.geminiResponse).confidence_score = 0 ∧
    (process_bill_message dist strptime w bills m).2 = .ok ∧
    ∀ b', b' ∈ (process_bill_message dist strptime w bills m).1 →
      b'.id = m.bill_id →
      (b'.status = "completed" ∨ b'.status = "duplicate") ∧
      (b'.status = "completed" →
        b'.vendor_name = some "Extraction Failed" ∧
        b'.total_amount = some 0 ∧
        b'.line_items = some [] ∧
        b'.raw_extraction = some extractionFailedFallback) := by
  have hext : extract_from_image w.geminiResponse =
      extractionFailedFallback := by
    cases hg : w.geminiResponse with
    | ok d => exact absurd hg (hresp d)
    | failure msg => rfl
    | empty => rfl
    | invalid raw => rfl
  refine ⟨hext, by rw [hext]; rfl, ?_, ?_⟩
  · rw [process_found hfound, runPipelineBody_ok hdl hq hc]
  · intro b' hmem hid
    rw [process_found hfound, runPipelineBody_ok hdl hq hc] at hmem
    rcases mem_updateBill hmem with rfl | ⟨_, hne⟩
    · cases hdup : (_check_duplicate dist
        (updateBill bills m.bill_id { b0 with status := "processing" })
        m.company_id (generate_embedding w.embedResponse)).is_duplicate with
      | true =>
        rw [terminalBill_dup hdup]
        refine ⟨Or.inr rfl, fun hcomp => ?_⟩
        simp [applyDuplicate] at hcomp
      | false =>
        rw [terminalBill_completed hdup, hext]
        exact ⟨Or.inl rfl, fun _ => ⟨rfl, rfl, rfl, rfl⟩⟩
    · exact absurd hid hne

/-- C5 witness: on a store with no candidates, the timed-out extraction
run returns normally after committing the sentinel as completed. -/
theorem C5_extraction_fallback_spec_witness :
    extract_from_image wOk.geminiResponse = extractionFailedFallback ∧
    (process_bill_message cosineDistanceUnit strptimeNone wOk
      [pendingBill 1 1] msg1).2 = .ok := by
  have h := C5_extraction_fallback_spec cosineDistanceUnit strptimeNone wOk
    [pendingBill 1 1] msg1 (pendingBill 1 1)
    (fun d hg => by cases hg) rfl rfl rfl rfl
  exact ⟨h.1, h.2.2.1⟩

/-- C9 witness: on a run over a fingerprint-free pending record that ends
in the duplicate outcome, the committed duplicate record has no
fingerprint. -/
theorem C9_fingerprint_only_on_completed_witness :
    (pendingBill 1 1).visual_fingerprint = none ∧
    dupRunBill.status = "duplicate" ∧
    dupRunBill.visual_fingerprint = none := by
  refine ⟨rfl, rfl, ?_⟩
  refine (C9_fingerprint_only_on_completed cosineDistanceUnit strptimeNone
    wOk dupBills msg1 (pendingBill 1 1) rfl rfl).2 dupRunBill ?_ rfl rfl
  rw [process_dupRun]
  exact List.mem_cons_self _ _

/-- C10 witness: the concrete duplicate-outcome run keeps the processed
record's extracted vendor name and fingerprint unchanged. -/
theorem C10_duplicate_outcome_frame_witness :
    dupRunBill.vendor_name = (pendingBill 1 1).vendor_name ∧
    dupRunBill.visual_fingerprint = (pendingBill 1 1).visual_fingerprint
    := by
  have h := C10_duplicate_outcome_frame cosineDistanceUnit strptimeNone
    wOk dupBills msg1 (pendingBill 1 1) rfl dupRunBill
    (by rw [process_dupRun]; exact List.mem_cons_self _ _) rfl rfl
  exact ⟨h.1, h.2.2.2.2.2.2.2.2.1⟩

end Fatural
